import Mathlib

/-!
A verification development for the distance/geocoding resilience layer of the
store-locator application: coordinate validation and normalization, Haversine
distance, the geocode cache with TTL and size cleanup, the sliding-window rate
limiter, fallback (gazetteer) geocoding, input sanitization for navigation
links, and distance sorting of the store list.

The definitions in the `StoreLocator` namespace are shallow embeddings of the
TypeScript sources: JavaScript numbers are modelled by `JSNum α` (NaN, the two
infinities, or a finite value), with `α := ℚ` where the code is executable and
`α := ℝ` for the trigonometric distance computation; JavaScript `Map`s are
modelled as insertion-ordered association lists; asynchronous code is modelled
by its sequential (single-event-loop) semantics with the external HTTP provider
and `Math.random` supplied as explicit parameters.
-/

namespace StoreLocator

/-- A JavaScript number: NaN, positive or negative infinity, or a finite value
drawn from `α`. -/
inductive JSNum (α : Type) where
  | nan : JSNum α
  | inf : JSNum α
  | ninf : JSNum α
  | fin (x : α) : JSNum α
deriving DecidableEq, Repr

namespace LocationService

variable {α : Type} [LinearOrderedField α] [FloorRing α]

/-- Models `Math.round`: rounds to the nearest integer, halves toward positive
infinity (`Math.round x = ⌊x + 0.5⌋` on exact values). -/
def jsRound (x : α) : ℤ := ⌊x + 1 / 2⌋

/-- Models `Math.round(x * 10^p) / 10^p`, the rounding used by
`LocationService.normalizeCoordinates` (p = COORDINATE_PRECISION = 6) and by
`calculateDistance` for its result (p = 3). -/
def roundTo (p : ℕ) (x : α) : α := (jsRound (x * 10 ^ p) : α) / 10 ^ p

/-- Embeds `LocationService.normalizeCoordinates`: rounds both components to 6
decimal places. -/
def normalizeCoordinates (lat lng : α) : α × α := (roundTo 6 lat, roundTo 6 lng)

/-- Embeds `LocationService.validateCoordinates`: fails (`none`) when either component
is non-finite, when the latitude is outside [-90, 90], when the longitude is
outside [-180, 180], or when both components are exactly zero; otherwise
succeeds with the normalized coordinate.  (The source also logs a warning for
more than 8 decimals of precision, which has no behavioural effect and is not
modelled; the `lat == null` check cannot fire in the typed embedding.) -/
def validateCoordinates (lat lng : JSNum α) : Option (α × α) :=
  match lat, lng with
  | .fin la, .fin ln =>
    if la < -90 ∨ 90 < la then none
    else if ln < -180 ∨ 180 < ln then none
    else if la = 0 ∧ ln = 0 then none
    else some (normalizeCoordinates la ln)
  | _, _ => none

/-- EARTH_RADIUS_KM from the source. -/
noncomputable def EARTH_RADIUS_KM : ℝ := 6371.0088

/-- Embeds `LocationService.toRadians` (only ever applied to validated, finite
degrees, so the non-finite throw path cannot fire). -/
noncomputable def toRadians (degrees : ℝ) : ℝ := degrees * (Real.pi / 180)

/-- Models `Math.atan2 y x` on finite arguments. -/
noncomputable def atan2 (y x : ℝ) : ℝ :=
  if 0 < x then Real.arctan (y / x)
  else if x < 0 then
    (if 0 ≤ y then Real.arctan (y / x) + Real.pi else Real.arctan (y / x) - Real.pi)
  else if 0 < y then Real.pi / 2
  else if y < 0 then -(Real.pi / 2)
  else 0

/-- Models `Math.sqrt` on a finite argument: NaN when the argument is negative. -/
noncomputable def jsSqrt (x : ℝ) : JSNum ℝ :=
  if 0 ≤ x then .fin (Real.sqrt x) else .nan

/-- The Haversine computation of `LocationService.calculateDistance` on the
validated coordinates, before the final finiteness/sign guard.  NaN (from a
square root of a negative number) propagates through `atan2` and the final
multiplications exactly as in JavaScript. -/
noncomputable def haversineRaw (lat1 lng1 lat2 lng2 : ℝ) : JSNum ℝ :=
  let lat1Rad := toRadians lat1
  let lat2Rad := toRadians lat2
  let deltaLatRad := toRadians (lat2 - lat1)
  let deltaLngRad := toRadians (lng2 - lng1)
  let a := Real.sin (deltaLatRad / 2) * Real.sin (deltaLatRad / 2) +
    Real.cos lat1Rad * Real.cos lat2Rad *
      (Real.sin (deltaLngRad / 2) * Real.sin (deltaLngRad / 2))
  match jsSqrt a, jsSqrt (1 - a) with
  | .fin sa, .fin sb => .fin (EARTH_RADIUS_KM * (2 * atan2 sa sb))
  | _, _ => .nan

/-- Embeds `LocationService.calculateDistance`: validates both inputs (returning
Infinity if either fails), runs the Haversine formula on the validated
coordinates, returns Infinity when the result is non-finite or negative, and
otherwise rounds to 3 decimal places. -/
noncomputable def calculateDistance (lat1 lng1 lat2 lng2 : JSNum ℝ) : JSNum ℝ :=
  match validateCoordinates lat1 lng1, validateCoordinates lat2 lng2 with
  | some (vlat1, vlng1), some (vlat2, vlng2) =>
    match haversineRaw vlat1 vlng1 vlat2 vlng2 with
    | .fin d => if d < 0 then .inf else .fin (roundTo 3 d)
    | _ => .inf
  | _, _ => .inf

end LocationService

/-- The JavaScript whitespace set (WhiteSpace plus LineTerminator), as matched
by `String.prototype.trim` and by `\s` in the sanitization regexes. -/
def isJsSpace (c : Char) : Bool :=
  let n := c.toNat
  n == 9 || n == 10 || n == 11 || n == 12 || n == 13 || n == 32 ||
  n == 0xa0 || n == 0x1680 || (decide (0x2000 ≤ n) && decide (n ≤ 0x200a)) ||
  n == 0x2028 || n == 0x2029 || n == 0x202f || n == 0x205f || n == 0x3000 ||
  n == 0xfeff

/-- Models `String.prototype.trim`: drop whitespace from both ends. -/
def jsTrim (l : List Char) : List Char :=
  ((l.dropWhile isJsSpace).reverse.dropWhile isJsSpace).reverse

/-- Helper for `collapseWs`: the flag records whether the previous character
was whitespace (so that only the first character of a run is kept, as a
space). -/
def collapseWsAux : Bool → List Char → List Char
  | _, [] => []
  | inRun, c :: cs =>
    if isJsSpace c then
      if inRun then collapseWsAux true cs else ' ' :: collapseWsAux true cs
    else c :: collapseWsAux false cs

/-- Models `.replace(/\s+/g, ' ')`: collapse every run of whitespace to one space. -/
def collapseWs (l : List Char) : List Char := collapseWsAux false l

/-- A Unicode combining diacritical mark (U+0300 to U+036F), the range removed
by `.replace(/[̀-ͯ]/g, '')`. -/
def isCombiningMark (c : Char) : Bool :=
  decide (0x300 ≤ c.toNat) && decide (c.toNat ≤ 0x36f)

/-- An ASCII character, the range kept by `.replace(/[^\x00-\x7F]/g, '')`. -/
def isAsciiChar (c : Char) : Bool := decide (c.toNat ≤ 0x7f)

/-- A character kept by `.replace(/[^a-zA-Z0-9\s\-.,#]/g, '')`. -/
def isAllowedAddressChar (c : Char) : Bool :=
  decide ('a' ≤ c ∧ c ≤ 'z') || decide ('A' ≤ c ∧ c ≤ 'Z') ||
  decide ('0' ≤ c ∧ c ≤ '9') || isJsSpace c ||
  c == '-' || c == '.' || c == ',' || c == '#'

/-- Models `String.prototype.toLowerCase`, modelled by the ASCII lowercase map (the
strings it is applied to are ASCII after sanitization). -/
def jsToLower (s : String) : String := ⟨s.data.map Char.toLower⟩

/-- Embeds `sanitizeAddress`, identical in `OlaMapService` and
`PerformanceOptimizedMapService`: NFD-normalize (the identity on the ASCII
inputs the theorems below quantify over, and modelled as the identity), strip
combining diacritical marks, strip non-ASCII, keep only letters, digits,
whitespace and `-.,#`, trim, and collapse whitespace runs. -/
def sanitizeAddress (address : String) : String :=
  ⟨collapseWs (jsTrim (((address.data.filter
      (fun c => !isCombiningMark c)).filter isAsciiChar).filter
        isAllowedAddressChar))⟩

/-- Whether `sub` is a prefix of `l`. -/
def isPrefixOfList (sub l : List Char) : Bool :=
  match sub, l with
  | [], _ => true
  | _ :: _, [] => false
  | a :: as, b :: bs => a == b && isPrefixOfList as bs

/-- Whether `sub` occurs contiguously inside `l`. -/
def isInfixOfList (sub : List Char) : List Char → Bool
  | [] => isPrefixOfList sub []
  | b :: bs => isPrefixOfList sub (b :: bs) || isInfixOfList sub bs

/-- Models `String.prototype.includes`: substring test. -/
def jsIncludes (s sub : String) : Bool := isInfixOfList sub.data s.data

/-- Models `String.prototype.split(' ')`: split at every single space. -/
def splitOnSpace : List Char → List (List Char)
  | [] => [[]]
  | c :: cs =>
    if c = ' ' then [] :: splitOnSpace cs
    else
      match splitOnSpace cs with
      | [] => [[c]]
      | w :: ws => (c :: w) :: ws

/-- The word list `location.split(' ')` used by the fallback geocoders. -/
def wordsOf (s : String) : List String := (splitOnSpace s.data).map String.mk

section JsMap

variable {κ β : Type} [DecidableEq κ]

/-- Models `Map.prototype.get` on an insertion-ordered association list. -/
def mapGet (k : κ) : List (κ × β) → Option β
  | [] => none
  | (k', v) :: m => if k' = k then some v else mapGet k m

/-- Models `Map.prototype.set`: update in place (keeping the insertion position) when
the key exists, append otherwise. -/
def mapSet (k : κ) (v : β) : List (κ × β) → List (κ × β)
  | [] => [(k, v)]
  | (k', v') :: m => if k' = k then (k, v) :: m else (k', v') :: mapSet k v m

/-- Models `Map.prototype.delete`: remove the entry with the given key. -/
def mapDelete (k : κ) : List (κ × β) → List (κ × β)
  | [] => []
  | (k', v') :: m => if k' = k then m else (k', v') :: mapDelete k m

end JsMap

/-- A geocoded coordinate, `{ lat, lng }`. -/
abbrev Coord : Type := ℚ × ℚ

/-- Embeds `CacheEntry<T>` from the source: the cached value, its creation timestamp
and its expiry timestamp. -/
structure CacheEntry (β : Type) where
  data : β
  timestamp : ℤ
  expiresAt : ℤ
deriving DecidableEq

namespace PerformanceOptimizedMapService

def GEOCODE_CACHE_DURATION : ℤ := 24 * 60 * 60 * 1000

def MAX_CACHE_SIZE : ℕ := 1000

def DAILY_API_LIMIT : ℤ := 10000

def RATE_LIMIT_WINDOW : ℤ := 60 * 1000

def MAX_REQUESTS_PER_WINDOW : ℕ := 100

/-- The mutable static state of `PerformanceOptimizedMapService`: the geocode
and directions caches (the payload of a directions entry is irrelevant to
every claim and abbreviated to `Option Unit`), the rate-limiter timestamps,
and the daily API-usage counters. -/
structure MapState where
  geocodeCache : List (String × CacheEntry (Option Coord))
  directionsCache : List (String × CacheEntry (Option Unit))
  requestTimestamps : List ℤ
  remainingCalls : ℤ
  geocodingCalls : ℤ

/-- Embeds `canMakeRequest`: false when the daily quota is exhausted; otherwise prune
the timestamps to the trailing window (a mutation of the static field,
returned as the second component) and require fewer than
MAX_REQUESTS_PER_WINDOW of them. -/
def canMakeRequest (now : ℤ) (s : MapState) : Bool × MapState :=
  if s.remainingCalls ≤ 0 then (false, s)
  else
    let ts := s.requestTimestamps.filter (fun t => decide (now - t < RATE_LIMIT_WINDOW))
    (decide (ts.length < MAX_REQUESTS_PER_WINDOW), { s with requestTimestamps := ts })

/-- Embeds `recordRequest`: push the current time onto the rate-limiter list. -/
def recordRequest (now : ℤ) (s : MapState) : MapState :=
  { s with requestTimestamps := s.requestTimestamps ++ [now] }

/-- The cache key of `geocodeAddress`: the sanitized address, lowercased. -/
def cacheKey (address : String) : String := jsToLower (sanitizeAddress address)

/-- The cache probe of `geocodeAddress`: a hit only when the entry exists and
`now` is strictly before its expiry. -/
def cacheLookup (now : ℤ) (k : String)
    (cache : List (String × CacheEntry (Option Coord))) : Option (Option Coord) :=
  match mapGet k cache with
  | some e => if now < e.expiresAt then some e.data else none
  | none => none

/-- The static gazetteer of `PerformanceOptimizedMapService.fallbackGeocode`,
in source order (string-keyed object literals preserve insertion order). -/
def locationCoordinates : List (String × ℚ × ℚ) := [
  ("bangalore", 12.971599, 77.594566),
  ("bengaluru", 12.971599, 77.594566),
  ("mumbai", 19.076090, 72.877426),
  ("delhi", 28.704060, 77.102493),
  ("new delhi", 28.613939, 77.209021),
  ("chennai", 13.082680, 80.270721),
  ("kolkata", 22.572646, 88.363895),
  ("hyderabad", 17.385044, 78.486671),
  ("pune", 18.520430, 73.856743),
  ("ahmedabad", 23.022505, 72.571362),
  ("jaipur", 26.912434, 75.787270),
  ("surat", 21.170240, 72.831061),
  ("lucknow", 26.846694, 80.946166),
  ("kanpur", 26.449923, 80.331871),
  ("nagpur", 21.145800, 79.088158),
  ("indore", 22.719568, 75.857727),
  ("thane", 19.218330, 72.978088),
  ("bhopal", 23.259933, 77.412615),
  ("visakhapatnam", 17.686816, 83.218482),
  ("pimpri", 18.629834, 73.799713),
  ("patna", 25.594095, 85.137566),
  ("vadodara", 22.307159, 73.181219),
  ("ghaziabad", 28.669155, 77.453758),
  ("ludhiana", 30.900965, 75.857277),
  ("agra", 27.176670, 78.008072),
  ("nashik", 19.997454, 73.789803),
  ("faridabad", 28.408389, 77.317429),
  ("meerut", 28.984644, 77.706414),
  ("rajkot", 22.308155, 70.800705),
  ("kalyan", 19.243169, 73.129394),
  ("koramangala", 12.935242, 77.624480),
  ("indiranagar", 12.971891, 77.641213),
  ("whitefield", 12.969808, 77.750122),
  ("electronic city", 12.845648, 77.660324),
  ("btm layout", 12.916500, 77.610100),
  ("hsr layout", 12.911606, 77.637043),
  ("marathahalli", 12.959065, 77.697395),
  ("hebbal", 13.035820, 77.597023),
  ("yelahanka", 13.100700, 77.596344),
  ("banashankari", 12.924915, 77.565742),
  ("jayanagar", 12.927923, 77.593742),
  ("malleshwaram", 13.003056, 77.581108),
  ("rajajinagar", 12.991545, 77.552017),
  ("basaveshwaranagar", 12.978394, 77.540836),
  ("vijayanagar", 12.963440, 77.585548),
  ("jp nagar", 12.908131, 77.583115),
  ("rt nagar", 13.019886, 77.595520),
  ("sadashivanagar", 13.006735, 77.580414),
  ("seshadripuram", 12.989012, 77.570664)]

/-- Embeds `PerformanceOptimizedMapService.fallbackGeocode`: the first gazetteer
entry whose name the lowercased address equals or contains; otherwise the
first entry one of whose words (longer than 3 characters) the address
contains; otherwise the Bangalore default.  Each result carries a small
jitter computed from two `Math.random()` draws `r1 r2` (values in [0, 1))
and is normalized to 6 decimal places. -/
def fallbackGeocode (r1 r2 : ℚ) (address : String) : Option Coord :=
  let addressLower := jsToLower address
  match locationCoordinates.find? (fun e =>
      addressLower == e.1 || jsIncludes addressLower e.1) with
  | some e => some (LocationService.normalizeCoordinates
      (e.2.1 + (r1 - 0.5) * 0.001) (e.2.2 + (r2 - 0.5) * 0.001))
  | none =>
    match locationCoordinates.find? (fun e => (wordsOf e.1).any
        (fun w => jsIncludes addressLower w && decide (3 < w.length))) with
    | some e => some (LocationService.normalizeCoordinates
        (e.2.1 + (r1 - 0.5) * 0.01) (e.2.2 + (r2 - 0.5) * 0.01))
    | none => some (LocationService.normalizeCoordinates
        (12.971599 + (r1 - 0.5) * 0.1) (77.594566 + (r2 - 0.5) * 0.1))

/-- The outcome of the external geocoding HTTP request for one call:
`success r` is a resolved fetch whose parsed body yields the coordinate `r`
(`none` when `geocodingResults` is empty), `failure` is a thrown
network/HTTP error. -/
inductive ProviderOutcome where
  | success (result : Option Coord)
  | failure

/-- Embeds `performGeocodingRequest` under the outcome `p`: `some r` is a normal
return (the first result normalized to 6 decimals, or `null`), `none` a
throw. -/
def performGeocodingRequest (p : ProviderOutcome) : Option (Option Coord) :=
  match p with
  | .success (some c) => some (some (LocationService.normalizeCoordinates c.1 c.2))
  | .success none => some none
  | .failure => none

/-- Embeds `PerformanceOptimizedMapService.geocodeAddress`, sequentially (the request
queue is empty at entry and the single queued closure runs to completion, so
queueing followed by `processQueue` executes the request at once; the second
`canMakeRequest` probe inside `processQueue` re-filters an already filtered
timestamp list and is the identity).  Returns the result, the number of
provider calls issued, and the new service state.  Note that the
rate-limited branch does not write to the cache, and that no branch invokes
`cleanupCache`. -/
def geocodeAddress (p : ProviderOutcome) (r1 r2 : ℚ) (now : ℤ) (address : String)
    (s : MapState) : Option Coord × ℕ × MapState :=
  if (jsTrim address.data).isEmpty then (none, 0, s)
  else
    let key := cacheKey address
    match cacheLookup now key s.geocodeCache with
    | some d => (d, 0, s)
    | none =>
      match canMakeRequest now s with
      | (false, s1) => (fallbackGeocode r1 r2 address, 0, s1)
      | (true, s1) =>
        match performGeocodingRequest p with
        | some result =>
          let s2 := { s1 with
            geocodeCache := mapSet key
              ⟨result, now, now + GEOCODE_CACHE_DURATION⟩ s1.geocodeCache,
            geocodingCalls := s1.geocodingCalls + 1,
            remainingCalls := s1.remainingCalls - 1 }
          (result, 1, recordRequest now s2)
        | none =>
          let fb := fallbackGeocode r1 r2 address
          let s2 := { s1 with
            geocodeCache := mapSet key
              ⟨fb, now, now + 60 * 60 * 1000⟩ s1.geocodeCache }
          (fb, 1, recordRequest now s2)

/-- Ordering of cache entries by creation timestamp, the comparator
`(a, b) => a[1].timestamp - b[1].timestamp` of `cleanupCache`. -/
def entryLE (a b : String × CacheEntry (Option Coord)) : Prop :=
  a.2.timestamp ≤ b.2.timestamp

instance : DecidableRel entryLE := fun a b => Int.decLe a.2.timestamp b.2.timestamp

/-- Embeds `PerformanceOptimizedMapService.cleanupCache` (invoked only from
`initialize`): purge expired entries from both caches; then, if the geocode
cache still exceeds MAX_CACHE_SIZE, delete the oldest entries by timestamp
(a stable ascending sort followed by `slice(0, length - MAX_CACHE_SIZE)`)
until exactly MAX_CACHE_SIZE remain. -/
def cleanupCache (now : ℤ) (s : MapState) : MapState :=
  let g := s.geocodeCache.filter (fun kv => !decide (now > kv.2.expiresAt))
  let d := s.directionsCache.filter (fun kv => !decide (now > kv.2.expiresAt))
  let g2 :=
    if MAX_CACHE_SIZE < g.length then
      ((List.insertionSort entryLE g).take (g.length - MAX_CACHE_SIZE)).foldl
        (fun m kv => mapDelete kv.1 m) g
    else g
  { s with geocodeCache := g2, directionsCache := d }

end PerformanceOptimizedMapService

namespace OlaMapService

/-- The static gazetteer of `OlaMapService.fallbackGeocode`, in source order:
Bangalore areas, then major cities, then states. -/
def locationCoordinates : List (String × ℚ × ℚ) := [
  ("basaveshwaranagar", 12.9784, 77.5408),
  ("basaveshwara nagar", 12.9784, 77.5408),
  ("rajajinagar", 12.9915, 77.5520),
  ("malleshwaram", 13.0031, 77.5811),
  ("jayanagar", 12.9279, 77.5937),
  ("koramangala", 12.9352, 77.6245),
  ("indiranagar", 12.9719, 77.6412),
  ("whitefield", 12.9698, 77.7500),
  ("electronic city", 12.8456, 77.6603),
  ("btm layout", 12.9165, 77.6101),
  ("hsr layout", 12.9116, 77.6370),
  ("marathahalli", 12.9591, 77.6974),
  ("hebbal", 13.0358, 77.5970),
  ("yelahanka", 13.1007, 77.5963),
  ("banashankari", 12.9249, 77.5657),
  ("jp nagar", 12.9081, 77.5831),
  ("vijayanagar", 12.9634, 77.5855),
  ("rt nagar", 13.0199, 77.5955),
  ("sadashivanagar", 13.0067, 77.5804),
  ("seshadripuram", 12.9890, 77.5707),
  ("bangalore", 12.9716, 77.5946),
  ("bengaluru", 12.9716, 77.5946),
  ("mumbai", 19.0760, 72.8777),
  ("delhi", 28.7041, 77.1025),
  ("chennai", 13.0827, 80.2707),
  ("kolkata", 22.5726, 88.3639),
  ("hyderabad", 17.3850, 78.4867),
  ("pune", 18.5204, 73.8567),
  ("ahmedabad", 23.0225, 72.5714),
  ("jaipur", 26.9124, 75.7873),
  ("surat", 21.1702, 72.8311),
  ("lucknow", 26.8467, 80.9462),
  ("kanpur", 26.4499, 80.3319),
  ("nagpur", 21.1458, 79.0882),
  ("indore", 22.7196, 75.8577),
  ("thane", 19.2183, 72.9781),
  ("bhopal", 23.2599, 77.4126),
  ("visakhapatnam", 17.6868, 83.2185),
  ("pimpri", 18.6298, 73.7997),
  ("patna", 25.5941, 85.1376),
  ("karnataka", 15.3173, 75.7139),
  ("assam", 26.2006, 92.9376),
  ("maharashtra", 19.7515, 75.7139),
  ("tamil nadu", 11.1271, 78.6569),
  ("west bengal", 22.9868, 87.8550),
  ("telangana", 18.1124, 79.0193),
  ("gujarat", 22.2587, 71.1924),
  ("rajasthan", 27.0238, 74.2179),
  ("uttar pradesh", 26.8467, 80.9462),
  ("madhya pradesh", 22.9734, 78.6569),
  ("bihar", 25.0961, 85.3131),
  ("odisha", 20.9517, 85.0985),
  ("kerala", 10.8505, 76.2711),
  ("punjab", 31.1471, 75.3412),
  ("haryana", 29.0588, 76.0856),
  ("jharkhand", 23.6102, 85.2799),
  ("chhattisgarh", 21.2787, 81.8661),
  ("uttarakhand", 30.0668, 79.0193),
  ("himachal pradesh", 31.1048, 77.1734),
  ("jammu and kashmir", 33.7782, 76.5762),
  ("goa", 15.2993, 74.1240),
  ("manipur", 24.6637, 93.9063),
  ("meghalaya", 25.4670, 91.3662),
  ("tripura", 23.9408, 91.9882),
  ("nagaland", 26.1584, 94.5624),
  ("mizoram", 23.1645, 92.9376),
  ("arunachal pradesh", 28.2180, 94.7278),
  ("sikkim", 27.5330, 88.5122),
  ("andhra pradesh", 15.9129, 79.7400)]

/-- Embeds `OlaMapService.fallbackGeocode`: the first gazetteer entry whose name the
lowercased address equals or contains (jitter 0.01); otherwise the first
entry whose first word the address contains (jitter 0.05); otherwise the
Bangalore default (jitter 0.1).  Unlike the performance-optimized variant,
results are not normalized. -/
def fallbackGeocode (r1 r2 : ℚ) (address : String) : Option Coord :=
  let addressLower := jsToLower address
  match locationCoordinates.find? (fun e =>
      addressLower == e.1 || jsIncludes addressLower e.1) with
  | some e => some (e.2.1 + (r1 - 0.5) * 0.01, e.2.2 + (r2 - 0.5) * 0.01)
  | none =>
    match locationCoordinates.find? (fun e =>
        jsIncludes addressLower ((wordsOf e.1).headD "")) with
    | some e => some (e.2.1 + (r1 - 0.5) * 0.05, e.2.2 + (r2 - 0.5) * 0.05)
    | none => some (12.9716 + (r1 - 0.5) * 0.1, 77.5946 + (r2 - 0.5) * 0.1)

/-- The outcome of the OlaMaps geocoding fetch: a resolved response with the
first result's raw coordinate (or `none` when `geocodingResults` is empty),
a non-ok HTTP response, or a thrown error. -/
inductive OlaOutcome where
  | success (result : Option Coord)
  | httpError
  | exception

/-- Embeds `OlaMapService.geocodeAddress` (the API key is a non-empty constant, so
the missing-key guard cannot fire): sanitize the address; if it is empty
after sanitization, resolve `null` without any network call; otherwise issue
the request and fall back to the gazetteer on an empty result, an HTTP
error (with the sanitized address), or an exception (with the raw address).
Returns the result and the number of network calls made. -/
def geocodeAddress (p : OlaOutcome) (r1 r2 : ℚ) (address : String) :
    Option Coord × ℕ :=
  let sanitizedAddress := sanitizeAddress address
  if (jsTrim sanitizedAddress.data).isEmpty then (none, 0)
  else
    match p with
    | .success (some c) => (some c, 1)
    | .success none => (fallbackGeocode r1 r2 sanitizedAddress, 1)
    | .httpError => (fallbackGeocode r1 r2 sanitizedAddress, 1)
    | .exception => (fallbackGeocode r1 r2 address, 1)

end OlaMapService

namespace EnhancedStoreLocator

/-- A store record, abbreviated to the fields the distance sort inspects
(the derived `distance`, absent when unknown) plus the name, which
distinguishes stores. -/
structure StoreRec where
  name : String
  distance : Option ℚ
deriving DecidableEq, Repr

/-- The sort key `a.distance || Infinity` of the distance comparator: an
absent distance is `undefined` and a zero distance is falsy, so both are
replaced by Infinity (`⊤`). -/
def distKey (s : StoreRec) : WithTop ℚ :=
  match s.distance with
  | none => ⊤
  | some d => if d = 0 then ⊤ else (d : WithTop ℚ)

/-- The total preorder induced by the comparator
`(a, b) => (a.distance || Infinity) - (b.distance || Infinity)` (a NaN
comparator value, arising as Infinity - Infinity, counts as 0 per the
ECMAScript SortCompare specification, which is the `⊤ ≤ ⊤` tie). -/
def distLE (a b : StoreRec) : Prop := distKey a ≤ distKey b

instance : DecidableRel distLE :=
  fun a b => inferInstanceAs (Decidable (distKey a ≤ distKey b))

/-- The `case 'distance'` branch of `sortStores`: `Array.prototype.sort` with
the distance comparator.  The ECMAScript specification requires the sort to
be stable, and with a consistent comparator the stable sorted permutation is
unique, so the branch is modelled by insertion sort, which is stable.  (The
alphabetical branch uses the locale-dependent `localeCompare` and the rating
branch a rating field; no claim concerns them.) -/
def sortStoresByDistance (l : List StoreRec) : List StoreRec :=
  List.insertionSort distLE l

end EnhancedStoreLocator

namespace EnhancedNavigationService

/-- Embeds `NavigationDestination` from the source: a coordinate plus the optional
display name and address. -/
structure NavigationDestination where
  lat : JSNum ℚ
  lng : JSNum ℚ
  name : Option String
  address : Option String

/-- The inner `sanitizeName` helper of
`EnhancedNavigationService.sanitizeLocationParams`: an absent string stays
absent and the empty string is falsy (also yielding `undefined`); otherwise
strip the five characters less-than, greater-than, double quote, single
quote (code 39) and ampersand, trim, and truncate to the first 100
characters.  Control characters are not stripped here. -/
def sanitizeName (str : Option String) : Option String :=
  match str with
  | none => none
  | some s =>
    if s = "" then none
    else some ⟨(jsTrim (s.data.filter (fun c =>
        !(c == '<' || c == '>' || c == '"' || c.toNat == 39 || c == '&')))).take 100⟩

/-- Embeds `EnhancedNavigationService.sanitizeLocationParams`: validate the
destination coordinate with `LocationService.validateCoordinates` (failure
yields the error result, modelled as `none`), then sanitize both the
optional name and the optional address with `sanitizeName` — both capped at
100 characters. -/
def sanitizeLocationParams (d : NavigationDestination) :
    Option (ℚ × ℚ × Option String × Option String) :=
  match LocationService.validateCoordinates d.lat d.lng with
  | none => none
  | some (la, ln) => some (la, ln, sanitizeName d.name, sanitizeName d.address)

end EnhancedNavigationService

namespace SecurityUtils

/-- Embeds `SecurityUtils.sanitizeText`: a falsy (empty) input yields the empty
string; otherwise strip the five characters less-than, greater-than, double
quote, single quote (code 39) and ampersand, strip the control characters
x00 to x1F and x7F, trim, and truncate to `maxLength` characters. -/
def sanitizeText (text : String) (maxLength : ℕ) : String :=
  if text = "" then ""
  else ⟨(jsTrim ((text.data.filter (fun c =>
      !(c == '<' || c == '>' || c == '"' || c.toNat == 39 || c == '&'))).filter
        (fun c => !(decide (c.toNat ≤ 0x1f) || c.toNat == 0x7f)))).take maxLength⟩

/-- The optional parameter record of `SecurityUtils.sanitizeLocationParams`. -/
structure LocationParams where
  lat : Option (JSNum ℚ)
  lng : Option (JSNum ℚ)
  name : Option String
  address : Option String

/-- Embeds `SecurityUtils.sanitizeLocationParams`: clamp a finite latitude to
[-90, 90] and a finite longitude to [-180, 180] (a non-finite or absent value
is dropped), drop an absent or empty (falsy) name or address, and otherwise
sanitize the name with `sanitizeText _ 100` and the address with
`sanitizeText _ 200`. -/
def sanitizeLocationParams (p : LocationParams) : LocationParams where
  lat := match p.lat with
    | some (.fin x) => some (.fin (max (-90) (min 90 x)))
    | _ => none
  lng := match p.lng with
    | some (.fin x) => some (.fin (max (-180) (min 180 x)))
    | _ => none
  name := match p.name with
    | some s => if s = "" then none else some (sanitizeText s 100)
    | none => none
  address := match p.address with
    | some s => if s = "" then none else some (sanitizeText s 200)
    | none => none

end SecurityUtils

end StoreLocator

open StoreLocator

/-- C1: `validateCoordinates` fails exactly when a component is non-finite,
the latitude is outside [-90, 90], the longitude is outside [-180, 180], or
both components are exactly zero; on every other input it succeeds with the
coordinate rounded to 6 decimal places.  In particular (91, 0), (0, 181) and
(0, 0) fail, and (12.9716001234, 77.5946007) succeeds yielding
(12.9716, 77.594601). -/
theorem validateCoordinates_spec :
    (∀ la ln : ℚ,
      LocationService.validateCoordinates (.fin la) (.fin ln) =
        if la < -90 ∨ 90 < la ∨ ln < -180 ∨ 180 < ln ∨ (la = 0 ∧ ln = 0) then none
        else some (LocationService.roundTo 6 la, LocationService.roundTo 6 ln)) ∧
    (∀ v : JSNum ℚ,
      LocationService.validateCoordinates .nan v = none ∧
      LocationService.validateCoordinates v .nan = none ∧
      LocationService.validateCoordinates .inf v = none ∧
      LocationService.validateCoordinates v .inf = none ∧
      LocationService.validateCoordinates .ninf v = none ∧
      LocationService.validateCoordinates v .ninf = none) ∧
    LocationService.validateCoordinates (.fin (91 : ℚ)) (.fin 0) = none ∧
    LocationService.validateCoordinates (.fin (0 : ℚ)) (.fin 181) = none ∧
    LocationService.validateCoordinates (.fin (0 : ℚ)) (.fin 0) = none ∧
    LocationService.validateCoordinates (.fin (12.9716001234 : ℚ)) (.fin 77.5946007) =
      some (12.9716, 77.594601) := by
  refine ⟨fun la ln => ?_, fun v => ?_, by decide, by decide, by decide, ?_⟩
  · simp only [LocationService.validateCoordinates, LocationService.normalizeCoordinates]
    split_ifs <;> tauto
  · cases v <;> exact ⟨rfl, rfl, rfl, rfl, rfl, rfl⟩
  · simp only [LocationService.validateCoordinates, LocationService.normalizeCoordinates,
      LocationService.roundTo, LocationService.jsRound]
    norm_num

namespace StoreLocator.LocationService

lemma roundTo_zero : roundTo 3 (0 : ℝ) = 0 := by
  simp only [roundTo, jsRound]
  norm_num

lemma roundTo_nonneg {x : ℝ} (hx : 0 ≤ x) : 0 ≤ roundTo 3 x := by
  simp only [roundTo, jsRound]
  have h1 : (0 : ℝ) ≤ x * 10 ^ 3 + 1 / 2 := by positivity
  have h2 : (0 : ℤ) ≤ ⌊x * 10 ^ 3 + 1 / 2⌋ := Int.floor_nonneg.2 h1
  have h3 : (0 : ℝ) ≤ (⌊x * 10 ^ 3 + 1 / 2⌋ : ℝ) := by exact_mod_cast h2
  positivity

lemma haversineRaw_self (l g : ℝ) : haversineRaw l g l g = .fin 0 := by
  simp only [haversineRaw]
  have hl : toRadians (l - l) = 0 := by simp [toRadians]
  have hg : toRadians (g - g) = 0 := by simp [toRadians]
  rw [hl, hg]
  simp only [zero_div, Real.sin_zero, mul_zero, zero_mul, zero_add, sub_zero]
  rw [show jsSqrt (0 : ℝ) = .fin 0 by simp [jsSqrt],
    show jsSqrt (1 : ℝ) = .fin 1 by simp [jsSqrt]]
  have ha : atan2 0 1 = 0 := by
    simp only [atan2, if_pos one_pos]
    simp [Real.arctan_zero]
  show JSNum.fin (EARTH_RADIUS_KM * (2 * atan2 0 1)) = JSNum.fin 0
  rw [ha]
  norm_num

lemma haversineRaw_symm (l1 g1 l2 g2 : ℝ) :
    haversineRaw l1 g1 l2 g2 = haversineRaw l2 g2 l1 g1 := by
  have hs : ∀ x y : ℝ,
      Real.sin (toRadians (x - y) / 2) * Real.sin (toRadians (x - y) / 2) =
        Real.sin (toRadians (y - x) / 2) * Real.sin (toRadians (y - x) / 2) := by
    intro x y
    have h : toRadians (x - y) = -toRadians (y - x) := by unfold toRadians; ring
    rw [h, neg_div, Real.sin_neg, neg_mul_neg]
  simp only [haversineRaw]
  rw [hs l2 l1, hs g2 g1, mul_comm (Real.cos (toRadians l1)) (Real.cos (toRadians l2))]

end StoreLocator.LocationService

/-- C2: for every valid coordinate, `calculateDistance` of the coordinate with
itself is 0, and `calculateDistance` is symmetric in its two coordinates. -/
theorem calculateDistance_self_symm :
    (∀ la ln : ℝ, LocationService.validateCoordinates (.fin la) (.fin ln) ≠ none →
      LocationService.calculateDistance (.fin la) (.fin ln) (.fin la) (.fin ln) = .fin 0) ∧
    (∀ lat1 lng1 lat2 lng2 : JSNum ℝ,
      LocationService.validateCoordinates lat1 lng1 ≠ none →
      LocationService.validateCoordinates lat2 lng2 ≠ none →
      LocationService.calculateDistance lat1 lng1 lat2 lng2 =
        LocationService.calculateDistance lat2 lng2 lat1 lng1) := by
  constructor
  · intro la ln h
    cases hv : LocationService.validateCoordinates (.fin la) (.fin ln) with
    | none => exact absurd hv h
    | some p =>
      obtain ⟨l, g⟩ := p
      simp only [LocationService.calculateDistance, hv, LocationService.haversineRaw_self]
      rw [if_neg (lt_irrefl (0 : ℝ)), LocationService.roundTo_zero]
  · intro lat1 lng1 lat2 lng2 _ _
    cases hv1 : LocationService.validateCoordinates lat1 lng1 with
    | none =>
      cases hv2 : LocationService.validateCoordinates lat2 lng2 with
      | none => simp only [LocationService.calculateDistance, hv1, hv2]
      | some p2 =>
        obtain ⟨l2, g2⟩ := p2
        simp only [LocationService.calculateDistance, hv1, hv2]
    | some p1 =>
      obtain ⟨l1, g1⟩ := p1
      cases hv2 : LocationService.validateCoordinates lat2 lng2 with
      | none => simp only [LocationService.calculateDistance, hv1, hv2]
      | some p2 =>
        obtain ⟨l2, g2⟩ := p2
        simp only [LocationService.calculateDistance, hv1, hv2]
        rw [LocationService.haversineRaw_symm]

/-- Witness for C2 at the concrete valid coordinates (1, 1) and (2, 2). -/
theorem calculateDistance_self_symm_witness :
    LocationService.validateCoordinates (.fin (1 : ℝ)) (.fin 1) ≠ none ∧
    LocationService.validateCoordinates (.fin (2 : ℝ)) (.fin 2) ≠ none ∧
    LocationService.calculateDistance (.fin (1 : ℝ)) (.fin 1) (.fin 1) (.fin 1) = .fin 0 ∧
    LocationService.calculateDistance (.fin (1 : ℝ)) (.fin 1) (.fin (2 : ℝ)) (.fin 2) =
      LocationService.calculateDistance (.fin (2 : ℝ)) (.fin 2) (.fin (1 : ℝ)) (.fin 1) := by
  have h1 : LocationService.validateCoordinates (.fin (1 : ℝ)) (.fin 1) ≠ none := by
    intro hcon
    simp only [LocationService.validateCoordinates] at hcon
    norm_num at hcon
    exact Option.noConfusion hcon
  have h2 : LocationService.validateCoordinates (.fin (2 : ℝ)) (.fin 2) ≠ none := by
    intro hcon
    simp only [LocationService.validateCoordinates] at hcon
    norm_num at hcon
    exact Option.noConfusion hcon
  exact ⟨h1, h2, calculateDistance_self_symm.1 1 1 h1,
    calculateDistance_self_symm.2 _ _ _ _ h1 h2⟩

/-- C3: if either input coordinate fails validation, `calculateDistance`
returns the Infinity sentinel (without raising), and on every input the result
is never NaN: it is Infinity or a finite non-negative number. -/
theorem calculateDistance_inf_or_nonneg :
    ∀ lat1 lng1 lat2 lng2 : JSNum ℝ,
      ((LocationService.validateCoordinates lat1 lng1 = none ∨
        LocationService.validateCoordinates lat2 lng2 = none) →
        LocationService.calculateDistance lat1 lng1 lat2 lng2 = .inf) ∧
      (LocationService.calculateDistance lat1 lng1 lat2 lng2 = .inf ∨
        ∃ d : ℝ, LocationService.calculateDistance lat1 lng1 lat2 lng2 = .fin d ∧ 0 ≤ d) := by
  intro lat1 lng1 lat2 lng2
  cases hv1 : LocationService.validateCoordinates lat1 lng1 with
  | none =>
    refine ⟨fun _ => ?_, Or.inl ?_⟩ <;>
      simp only [LocationService.calculateDistance, hv1]
  | some p1 =>
    obtain ⟨l1, g1⟩ := p1
    cases hv2 : LocationService.validateCoordinates lat2 lng2 with
    | none =>
      refine ⟨fun _ => ?_, Or.inl ?_⟩ <;>
        simp only [LocationService.calculateDistance, hv1, hv2]
    | some p2 =>
      obtain ⟨l2, g2⟩ := p2
      constructor
      · intro h
        rcases h with h | h <;> exact Option.noConfusion h
      · cases hr : LocationService.haversineRaw l1 g1 l2 g2 with
        | nan =>
          exact Or.inl (by simp only [LocationService.calculateDistance, hv1, hv2, hr])
        | inf =>
          exact Or.inl (by simp only [LocationService.calculateDistance, hv1, hv2, hr])
        | ninf =>
          exact Or.inl (by simp only [LocationService.calculateDistance, hv1, hv2, hr])
        | fin d =>
          by_cases hd : d < 0
          · refine Or.inl ?_
            simp only [LocationService.calculateDistance, hv1, hv2, hr]
            rw [if_pos hd]
          · refine Or.inr ⟨LocationService.roundTo 3 d, ?_,
              LocationService.roundTo_nonneg (not_lt.1 hd)⟩
            simp only [LocationService.calculateDistance, hv1, hv2, hr]
            rw [if_neg hd]

/-- Witness for C3 at a concrete invalid first coordinate (NaN latitude). -/
theorem calculateDistance_inf_or_nonneg_witness :
    (LocationService.validateCoordinates (JSNum.nan (α := ℝ)) (.fin 0) = none ∨
      LocationService.validateCoordinates (.fin (1 : ℝ)) (.fin 1) = none) ∧
    LocationService.calculateDistance (JSNum.nan (α := ℝ)) (.fin 0) (.fin 1) (.fin 1) = .inf :=
  ⟨Or.inl rfl, (calculateDistance_inf_or_nonneg .nan (.fin 0) (.fin 1) (.fin 1)).1 (Or.inl rfl)⟩

namespace StoreLocator.PerformanceOptimizedMapService

/-- The function `geocodeAddress` issues at most one provider call, on every path. -/
lemma geocodeAddress_calls_le_one (p : ProviderOutcome) (r1 r2 : ℚ) (now : ℤ)
    (address : String) (s : MapState) :
    (geocodeAddress p r1 r2 now address s).2.1 ≤ 1 := by
  unfold geocodeAddress
  dsimp only
  split
  · norm_num
  · split
    · norm_num
    · split
      · norm_num
      · split <;> norm_num

/-- Running `geocodeAddress` on a non-empty address with an unexpired cache entry:
return the cached value, no provider call, no state change. -/
lemma geocodeAddress_hit (p : ProviderOutcome) (r1 r2 : ℚ) (now : ℤ)
    (address : String) (s : MapState) (d : Option Coord)
    (htrim : (jsTrim address.data).isEmpty = false)
    (hlook : cacheLookup now (cacheKey address) s.geocodeCache = some d) :
    geocodeAddress p r1 r2 now address s = (d, 0, s) := by
  unfold geocodeAddress
  rw [htrim]
  simp only [Bool.false_eq_true, if_false, hlook]

/-- Running `geocodeAddress` on a non-empty address that misses the cache while the
rate limiter refuses: fall back to the gazetteer, no provider call, and only
the limiter pruning touches the state. -/
lemma geocodeAddress_denied (p : ProviderOutcome) (r1 r2 : ℚ) (now : ℤ)
    (address : String) (s : MapState)
    (htrim : (jsTrim address.data).isEmpty = false)
    (hmiss : cacheLookup now (cacheKey address) s.geocodeCache = none)
    (hcan : (canMakeRequest now s).1 = false) :
    geocodeAddress p r1 r2 now address s =
      (fallbackGeocode r1 r2 address, 0, (canMakeRequest now s).2) := by
  have hpair : canMakeRequest now s = (false, (canMakeRequest now s).2) := by
    rw [← hcan]
  unfold geocodeAddress
  rw [htrim]
  simp only [Bool.false_eq_true, if_false, hmiss]
  rw [hpair]

end StoreLocator.PerformanceOptimizedMapService

open StoreLocator.PerformanceOptimizedMapService in
/-- C4: when the first resolution of an address leaves a cache entry whose TTL
has not expired by the time of the second resolution of the same address
(hence the same normalized cache key), the second resolution returns the
cached value with no provider call, and the two resolutions together issue at
most one provider call. -/
theorem geocodeAddress_cached_second_call (p1 p2 : ProviderOutcome) (q1 q2 q3 q4 : ℚ)
    (t1 t2 : ℤ) (address : String) (s0 : MapState) (e : CacheEntry (Option Coord))
    (htrim : (jsTrim address.data).isEmpty = false)
    (hmem : mapGet (cacheKey address)
      (geocodeAddress p1 q1 q2 t1 address s0).2.2.geocodeCache = some e)
    (hexp : t2 < e.expiresAt) :
    (geocodeAddress p2 q3 q4 t2 address
        (geocodeAddress p1 q1 q2 t1 address s0).2.2).1 = e.data ∧
    (geocodeAddress p2 q3 q4 t2 address
        (geocodeAddress p1 q1 q2 t1 address s0).2.2).2.1 = 0 ∧
    (geocodeAddress p1 q1 q2 t1 address s0).2.1 +
      (geocodeAddress p2 q3 q4 t2 address
        (geocodeAddress p1 q1 q2 t1 address s0).2.2).2.1 ≤ 1 := by
  have hlook : cacheLookup t2 (cacheKey address)
      (geocodeAddress p1 q1 q2 t1 address s0).2.2.geocodeCache = some e.data := by
    unfold cacheLookup
    rw [hmem]
    exact if_pos hexp
  have hsecond : geocodeAddress p2 q3 q4 t2 address
      (geocodeAddress p1 q1 q2 t1 address s0).2.2 =
      (e.data, 0, (geocodeAddress p1 q1 q2 t1 address s0).2.2) :=
    geocodeAddress_hit p2 q3 q4 t2 address _ e.data htrim hlook
  refine ⟨by rw [hsecond], by rw [hsecond], ?_⟩
  rw [hsecond]
  simpa using geocodeAddress_calls_le_one p1 q1 q2 t1 address s0

open StoreLocator.PerformanceOptimizedMapService in
/-- Witness for C4: a fresh address "x" resolved at time 0 (one provider
call, caching the result with a 24h TTL) and again at time 1 (cache hit, no
provider call). -/
theorem geocodeAddress_cached_second_call_witness :
    (jsTrim "x".data).isEmpty = false ∧
    mapGet (cacheKey "x")
      (geocodeAddress (.success (some (1, 1))) 0 0 0 "x"
        ⟨[], [], [], 10000, 0⟩).2.2.geocodeCache =
      some ⟨some (LocationService.normalizeCoordinates 1 1), 0,
        0 + GEOCODE_CACHE_DURATION⟩ ∧
    (geocodeAddress .failure 0 0 1 "x"
        (geocodeAddress (.success (some (1, 1))) 0 0 0 "x"
          ⟨[], [], [], 10000, 0⟩).2.2).1 =
      some (LocationService.normalizeCoordinates 1 1) ∧
    (geocodeAddress .failure 0 0 1 "x"
        (geocodeAddress (.success (some (1, 1))) 0 0 0 "x"
          ⟨[], [], [], 10000, 0⟩).2.2).2.1 = 0 := by
  have htrim : (jsTrim "x".data).isEmpty = false := rfl
  have hmem : mapGet (cacheKey "x")
      (geocodeAddress (.success (some (1, 1))) 0 0 0 "x"
        ⟨[], [], [], 10000, 0⟩).2.2.geocodeCache =
      some ⟨some (LocationService.normalizeCoordinates 1 1), 0,
        0 + GEOCODE_CACHE_DURATION⟩ := rfl
  have hexp : (1 : ℤ) <
      (CacheEntry.mk (some (LocationService.normalizeCoordinates (1 : ℚ) 1)) 0
        (0 + GEOCODE_CACHE_DURATION)).expiresAt := by decide
  have h := geocodeAddress_cached_second_call (.success (some (1, 1))) .failure
    0 0 0 0 0 1 "x" ⟨[], [], [], 10000, 0⟩
    ⟨some (LocationService.normalizeCoordinates 1 1), 0, 0 + GEOCODE_CACHE_DURATION⟩
    htrim hmem hexp
  exact ⟨htrim, hmem, h.1, h.2.1⟩

namespace StoreLocator.PerformanceOptimizedMapService

/-- A key that misses an association list makes `mapSet` an append. -/
lemma mapSet_fresh {kappa beta : Type} [DecidableEq kappa] (k : kappa) (v : beta) :
    ∀ m : List (kappa × beta), mapGet k m = none → mapSet k v m = m ++ [(k, v)]
  | [], _ => rfl
  | (k', v') :: m, h => by
    unfold mapGet at h
    unfold mapSet
    by_cases hk : k' = k
    · rw [if_pos hk] at h
      exact Option.noConfusion h
    · rw [if_neg hk] at h
      rw [if_neg hk, mapSet_fresh k v m h]
      rfl

/-- A `mapGet` miss is a `cacheLookup` miss. -/
lemma cacheLookup_of_mapGet_none (now : ℤ) (k : String)
    (cache : List (String × CacheEntry (Option Coord)))
    (h : mapGet k cache = none) : cacheLookup now k cache = none := by
  unfold cacheLookup
  rw [h]

/-- The probe `canMakeRequest` only prunes the timestamp list. -/
lemma canMakeRequest_geocodeCache (now : ℤ) (s : MapState) :
    (canMakeRequest now s).2.geocodeCache = s.geocodeCache := by
  unfold canMakeRequest
  split <;> rfl

/-- Folding `mapDelete` over the first `k` entries of a list, starting from
the list itself, drops exactly those entries. -/
lemma foldl_mapDelete_take {beta : Type} :
    ∀ (m : List (String × beta)) (k : ℕ),
      (m.take k).foldl (fun acc kv => mapDelete kv.1 acc) m = m.drop k
  | _, 0 => by simp
  | [], _ + 1 => by simp
  | x :: rest, k + 1 => by
    simp only [List.take_succ_cons, List.foldl_cons, List.drop_succ_cons]
    rw [show mapDelete x.1 (x :: rest) = rest from by simp [mapDelete]]
    exact foldl_mapDelete_take rest k

/-- The cache write of the provider-success path of `geocodeAddress`: on a
cache miss the new entry is appended and nothing is purged or evicted. -/
lemma geocodeAddress_success_append (p : ProviderOutcome) (r1 r2 : ℚ) (now : ℤ)
    (address : String) (s : MapState) (c : Option Coord)
    (htrim : (jsTrim address.data).isEmpty = false)
    (hget : mapGet (cacheKey address) s.geocodeCache = none)
    (hcan : (canMakeRequest now s).1 = true)
    (hp : performGeocodingRequest p = some c) :
    (geocodeAddress p r1 r2 now address s).2.2.geocodeCache =
      s.geocodeCache ++
        [(cacheKey address, ⟨c, now, now + GEOCODE_CACHE_DURATION⟩)] := by
  have hpair : canMakeRequest now s = (true, (canMakeRequest now s).2) := by
    rw [← hcan]
  unfold geocodeAddress
  rw [htrim]
  simp only [Bool.false_eq_true, if_false,
    cacheLookup_of_mapGet_none now (cacheKey address) s.geocodeCache hget]
  rw [hpair]
  simp only [hp]
  dsimp only [recordRequest]
  rw [canMakeRequest_geocodeCache]
  exact mapSet_fresh (cacheKey address) _ s.geocodeCache hget

/-- The cache write of the provider-failure path of `geocodeAddress`: on a
cache miss the fallback result is appended with the 1-hour TTL and nothing is
purged or evicted. -/
lemma geocodeAddress_failure_append (p : ProviderOutcome) (r1 r2 : ℚ) (now : ℤ)
    (address : String) (s : MapState)
    (htrim : (jsTrim address.data).isEmpty = false)
    (hget : mapGet (cacheKey address) s.geocodeCache = none)
    (hcan : (canMakeRequest now s).1 = true)
    (hp : performGeocodingRequest p = none) :
    (geocodeAddress p r1 r2 now address s).2.2.geocodeCache =
      s.geocodeCache ++ [(cacheKey address,
        ⟨fallbackGeocode r1 r2 address, now, now + 60 * 60 * 1000⟩)] := by
  have hpair : canMakeRequest now s = (true, (canMakeRequest now s).2) := by
    rw [← hcan]
  unfold geocodeAddress
  rw [htrim]
  simp only [Bool.false_eq_true, if_false,
    cacheLookup_of_mapGet_none now (cacheKey address) s.geocodeCache hget]
  rw [hpair]
  simp only [hp]
  dsimp only [recordRequest]
  rw [canMakeRequest_geocodeCache]
  exact mapSet_fresh (cacheKey address) _ s.geocodeCache hget

/-- Deleting a key from an association list yields a sublist. -/
lemma mapDelete_sublist {kappa beta : Type} [DecidableEq kappa] (k : kappa) :
    ∀ m : List (kappa × beta), (mapDelete k m).Sublist m
  | [] => List.Sublist.refl []
  | (k', v') :: m => by
    unfold mapDelete
    by_cases hk : k' = k
    · rw [if_pos hk]
      exact List.sublist_cons_self _ _
    · rw [if_neg hk]
      exact (mapDelete_sublist k m).cons₂ _

/-- Folding `mapDelete` over any list of entries yields a sublist of the
starting cache. -/
lemma foldl_mapDelete_sublist {beta : Type} :
    ∀ (l acc : List (String × beta)),
      (l.foldl (fun m kv => mapDelete kv.1 m) acc).Sublist acc
  | [], acc => List.Sublist.refl acc
  | x :: l, acc => by
    rw [List.foldl_cons]
    exact (foldl_mapDelete_sublist l (mapDelete x.1 acc)).trans
      (mapDelete_sublist x.1 acc)

/-- The geocode cache left by `cleanupCache` is a sublist of the purge (the
expired-entry filter) of the original cache. -/
lemma cleanupCache_sublist_filter (now : ℤ) (s : MapState) :
    (cleanupCache now s).geocodeCache.Sublist
      (s.geocodeCache.filter (fun kv => !decide (now > kv.2.expiresAt))) := by
  unfold cleanupCache
  dsimp only
  split
  · exact foldl_mapDelete_sublist _ _
  · exact List.Sublist.refl _

end StoreLocator.PerformanceOptimizedMapService

open StoreLocator.PerformanceOptimizedMapService in
/-- C5 counterexample: writes to the geocode cache neither purge expired
entries nor evict (`cleanupCache` runs only during `initialize`): an entry
that expired at time 0 survives verbatim a `geocodeAddress` write at time
10, which simply appends. -/
theorem geocodeCache_write_no_purge_counterexample :
    mapGet "old"
      (geocodeAddress (.success (some (1, 1))) 0 0 10 "new"
        ⟨[("old", ⟨none, 0, 0⟩)], [], [], 10000, 0⟩).2.2.geocodeCache =
      some ⟨none, 0, 0⟩ ∧
    (10 : ℤ) > (0 : ℤ) ∧
    (geocodeAddress (.success (some (1, 1))) 0 0 10 "new"
        ⟨[("old", ⟨none, 0, 0⟩)], [], [], 10000, 0⟩).2.2.geocodeCache.length = 2 :=
  ⟨rfl, by decide, rfl⟩

open StoreLocator.PerformanceOptimizedMapService in
/-- C5 (amended): `cleanupCache` — invoked from `initialize`, not on writes —
purges expired entries from the geocode cache: no expired entry survives it
on any input, and when the purged cache is within the size limit the result
is exactly the purge; when the purged cache still exceeds MAX_CACHE_SIZE
(1000), the oldest entries by creation timestamp are removed, leaving
exactly MAX_CACHE_SIZE (for a purged cache of MAX_CACHE_SIZE + k entries in
timestamp order, the first k are dropped).  A write to the cache itself
never purges or evicts: on a cache miss both the provider-success and the
provider-failure (fallback-caching) paths of `geocodeAddress` append the new
entry, leaving every existing entry — expired or not — in place. -/
theorem cleanupCache_eviction_and_write_append :
    (∀ (now : ℤ) (s : MapState),
      ∀ kv ∈ (cleanupCache now s).geocodeCache, ¬now > kv.2.expiresAt) ∧
    (∀ (now : ℤ) (s : MapState),
      (s.geocodeCache.filter
          (fun kv => !decide (now > kv.2.expiresAt))).length ≤ MAX_CACHE_SIZE →
      (cleanupCache now s).geocodeCache =
        s.geocodeCache.filter (fun kv => !decide (now > kv.2.expiresAt))) ∧
    (∀ (now : ℤ) (s : MapState) (k : ℕ),
      List.Sorted entryLE
        (s.geocodeCache.filter (fun kv => !decide (now > kv.2.expiresAt))) →
      (s.geocodeCache.filter
          (fun kv => !decide (now > kv.2.expiresAt))).length = MAX_CACHE_SIZE + k →
      0 < k →
      (cleanupCache now s).geocodeCache =
        (s.geocodeCache.filter (fun kv => !decide (now > kv.2.expiresAt))).drop k ∧
      (cleanupCache now s).geocodeCache.length = MAX_CACHE_SIZE) ∧
    (∀ (p : ProviderOutcome) (r1 r2 : ℚ) (now : ℤ) (address : String)
        (s : MapState) (c : Option Coord),
      (jsTrim address.data).isEmpty = false →
      mapGet (cacheKey address) s.geocodeCache = none →
      (canMakeRequest now s).1 = true →
      performGeocodingRequest p = some c →
      (geocodeAddress p r1 r2 now address s).2.2.geocodeCache =
        s.geocodeCache ++
          [(cacheKey address, ⟨c, now, now + GEOCODE_CACHE_DURATION⟩)]) ∧
    (∀ (p : ProviderOutcome) (r1 r2 : ℚ) (now : ℤ) (address : String)
        (s : MapState),
      (jsTrim address.data).isEmpty = false →
      mapGet (cacheKey address) s.geocodeCache = none →
      (canMakeRequest now s).1 = true →
      performGeocodingRequest p = none →
      (geocodeAddress p r1 r2 now address s).2.2.geocodeCache =
        s.geocodeCache ++ [(cacheKey address,
          ⟨fallbackGeocode r1 r2 address, now, now + 60 * 60 * 1000⟩)]) := by
  refine ⟨?_, ?_, ?_, ?_, ?_⟩
  · intro now s kv hkv
    have hmem := (cleanupCache_sublist_filter now s).subset hkv
    have hpred := (List.mem_filter.1 hmem).2
    simpa using hpred
  · intro now s hle
    unfold cleanupCache
    dsimp only
    rw [if_neg (not_lt.2 hle)]
  · intro now s k hsorted hlen hk
    have hgt : MAX_CACHE_SIZE < (s.geocodeCache.filter
        (fun kv => !decide (now > kv.2.expiresAt))).length := by
      rw [hlen]; omega
    have hsort := List.Sorted.insertionSort_eq hsorted
    have hcache : (cleanupCache now s).geocodeCache =
        (s.geocodeCache.filter (fun kv => !decide (now > kv.2.expiresAt))).drop k := by
      unfold cleanupCache
      dsimp only
      rw [if_pos hgt, hsort, hlen]
      rw [show MAX_CACHE_SIZE + k - MAX_CACHE_SIZE = k from by omega]
      exact foldl_mapDelete_take _ k
    refine ⟨hcache, ?_⟩
    rw [hcache, List.length_drop, hlen]
    omega
  · intro p r1 r2 now address s c htrim hget hcan hp
    exact geocodeAddress_success_append p r1 r2 now address s c htrim hget hcan hp
  · intro p r1 r2 now address s htrim hget hcan hp
    exact geocodeAddress_failure_append p r1 r2 now address s htrim hget hcan hp

set_option maxRecDepth 8000 in
open StoreLocator.PerformanceOptimizedMapService in
/-- Witness for the amended C5: cleanup at time 3 of a cache holding an entry
expired at time 0 and an entry expiring at time 5 keeps exactly the purge
(the unexpired entry); a 1001-entry unexpired cache in timestamp order is
cut down to its newest 1000 entries; and fresh writes into the empty cache
append, both on the provider-success and on the provider-failure path. -/
theorem cleanupCache_eviction_and_write_append_witness :
    (("new", (⟨none, 1, 5⟩ : CacheEntry (Option Coord))) ∈
        (cleanupCache 3 ⟨[("old", ⟨none, 0, 0⟩), ("new", ⟨none, 1, 5⟩)],
          [], [], 10000, 0⟩).geocodeCache ∧
      ¬(3 : ℤ) > (5 : ℤ)) ∧
    (cleanupCache 3 ⟨[("old", ⟨none, 0, 0⟩), ("new", ⟨none, 1, 5⟩)],
        [], [], 10000, 0⟩).geocodeCache =
      [("old", (⟨none, 0, 0⟩ : CacheEntry (Option Coord))),
        ("new", ⟨none, 1, 5⟩)].filter
          (fun kv => !decide ((3 : ℤ) > kv.2.expiresAt)) ∧
    (cleanupCache 0
      ⟨(List.range (MAX_CACHE_SIZE + 1)).map
        (fun i => (String.mk (List.replicate i 'a'),
          (⟨none, (i : ℤ), 1⟩ : CacheEntry (Option Coord)))),
        [], [], 10000, 0⟩).geocodeCache.length = MAX_CACHE_SIZE ∧
    (geocodeAddress (.success (some (1, 1))) 0 0 0 "x"
        ⟨[], [], [], 10000, 0⟩).2.2.geocodeCache =
      [] ++ [(cacheKey "x",
        ⟨some (LocationService.normalizeCoordinates 1 1), 0,
          0 + GEOCODE_CACHE_DURATION⟩)] ∧
    (geocodeAddress .failure 0 0 0 "y"
        ⟨[], [], [], 10000, 0⟩).2.2.geocodeCache =
      [] ++ [(cacheKey "y",
        ⟨fallbackGeocode 0 0 "y", 0, 0 + 60 * 60 * 1000⟩)] := by
  have hmem : ("new", (⟨none, 1, 5⟩ : CacheEntry (Option Coord))) ∈
      (cleanupCache 3 (⟨[("old", ⟨none, 0, 0⟩), ("new", ⟨none, 1, 5⟩)],
        [], [], 10000, 0⟩ : MapState)).geocodeCache := by decide
  have hsorted : List.Sorted entryLE ((List.range (MAX_CACHE_SIZE + 1)).map
      (fun i => (String.mk (List.replicate i 'a'),
        (⟨none, (i : ℤ), 1⟩ : CacheEntry (Option Coord))))) := by
    rw [List.Sorted, List.pairwise_map]
    refine (List.pairwise_lt_range _).imp ?_
    intro a b hab
    have h : ((a : ℤ)) ≤ ((b : ℤ)) := by exact_mod_cast Nat.le_of_lt hab
    exact h
  have hfilter : ((List.range (MAX_CACHE_SIZE + 1)).map
      (fun i => (String.mk (List.replicate i 'a'),
        (⟨none, (i : ℤ), 1⟩ : CacheEntry (Option Coord))))).filter
      (fun kv => !decide ((0 : ℤ) > kv.2.expiresAt)) =
      (List.range (MAX_CACHE_SIZE + 1)).map
        (fun i => (String.mk (List.replicate i 'a'),
          (⟨none, (i : ℤ), 1⟩ : CacheEntry (Option Coord)))) := by
    rw [List.filter_eq_self]
    intro kv hkv
    simp only [List.mem_map] at hkv
    obtain ⟨i, -, rfl⟩ := hkv
    rfl
  have hsorted2 : List.Sorted entryLE (((List.range (MAX_CACHE_SIZE + 1)).map
      (fun i => (String.mk (List.replicate i 'a'),
        (⟨none, (i : ℤ), 1⟩ : CacheEntry (Option Coord))))).filter
      (fun kv => !decide ((0 : ℤ) > kv.2.expiresAt))) := by
    rw [hfilter]; exact hsorted
  have hlen2 : (((List.range (MAX_CACHE_SIZE + 1)).map
      (fun i => (String.mk (List.replicate i 'a'),
        (⟨none, (i : ℤ), 1⟩ : CacheEntry (Option Coord))))).filter
      (fun kv => !decide ((0 : ℤ) > kv.2.expiresAt))).length =
      MAX_CACHE_SIZE + 1 := by
    rw [hfilter, List.length_map, List.length_range]
  refine ⟨⟨hmem, cleanupCache_eviction_and_write_append.1 3 _ _ hmem⟩,
    ?_, ?_, ?_, ?_⟩
  · exact cleanupCache_eviction_and_write_append.2.1 3
      ⟨[("old", ⟨none, 0, 0⟩), ("new", ⟨none, 1, 5⟩)], [], [], 10000, 0⟩
      (by decide)
  · refine (cleanupCache_eviction_and_write_append.2.2.1 0
      ⟨_, [], [], 10000, 0⟩ 1 ?_ ?_ ?_).2
    · exact hsorted2
    · exact hlen2
    · omega
  · exact cleanupCache_eviction_and_write_append.2.2.2.1 (.success (some (1, 1)))
      0 0 0 "x" ⟨[], [], [], 10000, 0⟩
      (some (LocationService.normalizeCoordinates 1 1)) rfl rfl (by decide) rfl
  · exact cleanupCache_eviction_and_write_append.2.2.2.2 .failure
      0 0 0 "y" ⟨[], [], [], 10000, 0⟩ rfl rfl (by decide) rfl

namespace StoreLocator.EnhancedStoreLocator

instance : IsTotal StoreRec distLE :=
  ⟨fun a b => le_total (distKey a) (distKey b)⟩

instance : IsTrans StoreRec distLE :=
  ⟨fun _ _ _ hab hbc => le_trans hab hbc⟩

/-- Inserting `x` into `l` in key order places it before the elements of
equal key, so filtering at any key commutes with the insertion. -/
lemma filter_orderedInsert (k : WithTop ℚ) (x : StoreRec) :
    ∀ l : List StoreRec,
      (List.orderedInsert distLE x l).filter (fun s => decide (distKey s = k)) =
        if distKey x = k then
          x :: l.filter (fun s => decide (distKey s = k))
        else l.filter (fun s => decide (distKey s = k))
  | [] => by
    by_cases h : distKey x = k <;> simp [List.orderedInsert, h]
  | y :: l => by
    by_cases hxy : distLE x y
    · by_cases hx : distKey x = k <;> by_cases hy : distKey y = k <;>
        simp [List.orderedInsert, hxy, hx, hy]
    · by_cases hx : distKey x = k
      · have hy : ¬distKey y = k := fun hyk => hxy (le_of_eq (hx.trans hyk.symm))
        simp [List.orderedInsert, hxy, filter_orderedInsert k x l, hx, hy]
      · by_cases hy : distKey y = k <;>
          simp [List.orderedInsert, hxy, filter_orderedInsert k x l, hx, hy]

/-- Stability of the distance sort: the subsequence of stores at any fixed
key is preserved. -/
lemma sortStores_stable (k : WithTop ℚ) :
    ∀ l : List StoreRec,
      (sortStoresByDistance l).filter (fun s => decide (distKey s = k)) =
        l.filter (fun s => decide (distKey s = k))
  | [] => rfl
  | x :: l => by
    have ih := sortStores_stable k l
    unfold sortStoresByDistance at ih ⊢
    rw [List.insertionSort, filter_orderedInsert k x]
    by_cases hx : distKey x = k <;> simp [hx, ih]

end StoreLocator.EnhancedStoreLocator

open StoreLocator.EnhancedStoreLocator in
/-- C7 counterexample: the comparator key `a.distance || Infinity` treats a
zero distance as falsy, so a store at distance 0 sorts after a store at
distance 1 — the result is not ascending by distance. -/
theorem sortStores_zero_distance_counterexample :
    sortStoresByDistance [⟨"A", some 0⟩, ⟨"B", some 1⟩] =
      [⟨"B", some 1⟩, ⟨"A", some 0⟩] ∧
    sortStoresByDistance [⟨"A", some 0⟩, ⟨"B", some 1⟩] ≠
      [⟨"A", some 0⟩, ⟨"B", some 1⟩] := by
  constructor <;> decide

open StoreLocator.EnhancedStoreLocator in
/-- C7 (amended): sorting by the distance key orders stores ascending by the
key that treats a missing — or zero, since 0 is falsy in the comparator —
distance as +infinity, stably for equal keys; the 5 stores with distances
[3, null, 1, 5, 2] sort to [1, 2, 3, 5, null]. -/
theorem sortStores_distance_spec :
    (∀ l : List StoreRec, List.Sorted distLE (sortStoresByDistance l)) ∧
    (∀ (l : List StoreRec) (k : WithTop ℚ),
      (sortStoresByDistance l).filter (fun s => decide (distKey s = k)) =
        l.filter (fun s => decide (distKey s = k))) ∧
    sortStoresByDistance [⟨"s1", some 3⟩, ⟨"s2", none⟩, ⟨"s3", some 1⟩,
        ⟨"s4", some 5⟩, ⟨"s5", some 2⟩] =
      [⟨"s3", some 1⟩, ⟨"s5", some 2⟩, ⟨"s1", some 3⟩, ⟨"s4", some 5⟩,
        ⟨"s2", none⟩] :=
  ⟨fun l => List.sorted_insertionSort distLE l,
    fun l k => sortStores_stable k l, by decide⟩

namespace StoreLocator

/-- Membership in a trimmed list implies membership in the original list. -/
lemma mem_of_mem_jsTrim {c : Char} {l : List Char} (h : c ∈ jsTrim l) : c ∈ l := by
  unfold jsTrim at h
  rw [List.mem_reverse] at h
  have h1 : c ∈ (l.dropWhile isJsSpace).reverse :=
    (List.dropWhile_sublist _).subset h
  rw [List.mem_reverse] at h1
  exact (List.dropWhile_sublist _).subset h1

/-- Every character of an `EnhancedNavigationService.sanitizeName` result
survives the filters: none of the five stripped characters occurs, and the
length is at most 100. -/
lemma sanitizeName_spec (str : Option String) :
    ∀ s ∈ EnhancedNavigationService.sanitizeName str,
      s.length ≤ 100 ∧ ∀ c ∈ s.data,
        c ≠ '<' ∧ c ≠ '>' ∧ c ≠ '"' ∧ c.toNat ≠ 39 ∧ c ≠ '&' := by
  intro s hs
  unfold EnhancedNavigationService.sanitizeName at hs
  match str with
  | none => exact absurd hs (by simp)
  | some s0 =>
    dsimp only at hs
    by_cases h0 : s0 = ""
    · rw [if_pos h0] at hs
      exact absurd hs (by simp)
    · rw [if_neg h0] at hs
      simp only [Option.mem_def, Option.some.injEq] at hs
      subst hs
      constructor
      · show (List.take 100 _).length ≤ 100
        exact List.length_take_le 100 _
      · intro c hc
        have hc1 := List.take_subset 100 _ hc
        have hc2 := mem_of_mem_jsTrim hc1
        have hc3 := (List.mem_filter.1 hc2).2
        simp only [Bool.not_eq_eq_eq_not, Bool.not_true, Bool.or_eq_false_iff,
          beq_eq_false_iff_ne, ne_eq] at hc3
        refine ⟨hc3.1.1.1.1, hc3.1.1.1.2, hc3.1.1.2, ?_, hc3.2⟩
        simpa using hc3.1.2

/-- Every character of a `SecurityUtils.sanitizeText` result survives both
filters: none of the five stripped characters and no control character
occurs, and the length is at most `maxLength`. -/
lemma sanitizeText_spec (t : String) (maxLength : ℕ) :
    (SecurityUtils.sanitizeText t maxLength).length ≤ maxLength ∧
    ∀ c ∈ (SecurityUtils.sanitizeText t maxLength).data,
      (c ≠ '<' ∧ c ≠ '>' ∧ c ≠ '"' ∧ c.toNat ≠ 39 ∧ c ≠ '&') ∧
      ¬c.toNat ≤ 0x1f ∧ c.toNat ≠ 0x7f := by
  unfold SecurityUtils.sanitizeText
  split
  · exact ⟨Nat.zero_le _, by simp⟩
  · constructor
    · show (List.take maxLength _).length ≤ maxLength
      exact List.length_take_le maxLength _
    · intro c hc
      have hc1 := List.take_subset maxLength _ hc
      have hc2 := mem_of_mem_jsTrim hc1
      have hctl := (List.mem_filter.1 hc2).2
      have hc3 := (List.mem_filter.1 (List.mem_filter.1 hc2).1).2
      simp only [Bool.not_eq_eq_eq_not, Bool.not_true, Bool.or_eq_false_iff,
        beq_eq_false_iff_ne, ne_eq, decide_eq_false_iff_not] at hc3 hctl
      exact ⟨⟨hc3.1.1.1.1, hc3.1.1.1.2, hc3.1.1.2, by simpa using hc3.1.2, hc3.2⟩,
        hctl.1, hctl.2⟩

end StoreLocator

set_option maxRecDepth 8000 in
open StoreLocator.EnhancedNavigationService in
/-- C8 counterexample: `EnhancedNavigationService.sanitizeLocationParams`
keeps the control character x01 in the destination name and truncates a
150-character address to 100 characters, not to the claimed 200-character
cap. -/
theorem sanitizeLocationParams_counterexample :
    sanitizeLocationParams
        ⟨.fin 1, .fin 1, some ⟨['A', '\x01', 'B']⟩, some ⟨List.replicate 150 'a'⟩⟩ =
      some (StoreLocator.LocationService.roundTo 6 1,
        StoreLocator.LocationService.roundTo 6 1,
        some ⟨['A', '\x01', 'B']⟩, some ⟨List.replicate 100 'a'⟩) ∧
    ('\x01').toNat ≤ 0x1f ∧
    (⟨List.replicate 150 'a'⟩ : String).length = 150 ∧
    (⟨List.replicate 100 'a'⟩ : String).length = 100 :=
  ⟨rfl, by decide, by decide, by decide⟩

open StoreLocator.EnhancedNavigationService in
/-- C8 (amended): for every navigation request the optional name and address
are stripped of the characters less-than, greater-than, double quote, single
quote and ampersand and trimmed — but
`EnhancedNavigationService.sanitizeLocationParams` caps BOTH at 100
characters and does not strip control characters, while
`SecurityUtils.sanitizeLocationParams` (the MapContainer path) also strips
control characters and caps the name at 100 and the address at 200. -/
theorem sanitizeLocationParams_spec :
    (∀ (d : NavigationDestination) (la ln : ℚ) (n a : Option String),
      sanitizeLocationParams d = some (la, ln, n, a) →
      n = sanitizeName d.name ∧ a = sanitizeName d.address ∧
      (∀ s ∈ n, s.length ≤ 100 ∧ ∀ c ∈ s.data,
        c ≠ '<' ∧ c ≠ '>' ∧ c ≠ '"' ∧ c.toNat ≠ 39 ∧ c ≠ '&') ∧
      (∀ s ∈ a, s.length ≤ 100 ∧ ∀ c ∈ s.data,
        c ≠ '<' ∧ c ≠ '>' ∧ c ≠ '"' ∧ c.toNat ≠ 39 ∧ c ≠ '&')) ∧
    (∀ p : StoreLocator.SecurityUtils.LocationParams,
      (∀ s ∈ (StoreLocator.SecurityUtils.sanitizeLocationParams p).name,
        s.length ≤ 100 ∧ ∀ c ∈ s.data,
          (c ≠ '<' ∧ c ≠ '>' ∧ c ≠ '"' ∧ c.toNat ≠ 39 ∧ c ≠ '&') ∧
          ¬c.toNat ≤ 0x1f ∧ c.toNat ≠ 0x7f) ∧
      (∀ s ∈ (StoreLocator.SecurityUtils.sanitizeLocationParams p).address,
        s.length ≤ 200 ∧ ∀ c ∈ s.data,
          (c ≠ '<' ∧ c ≠ '>' ∧ c ≠ '"' ∧ c.toNat ≠ 39 ∧ c ≠ '&') ∧
          ¬c.toNat ≤ 0x1f ∧ c.toNat ≠ 0x7f)) := by
  constructor
  · intro d la ln n a h
    unfold sanitizeLocationParams at h
    cases hv : StoreLocator.LocationService.validateCoordinates d.lat d.lng with
    | none => rw [hv] at h; exact Option.noConfusion h
    | some q =>
      obtain ⟨l, g⟩ := q
      rw [hv] at h
      simp only [Option.some.injEq, Prod.mk.injEq] at h
      obtain ⟨-, -, hn, ha⟩ := h
      exact ⟨hn.symm, ha.symm,
        hn ▸ StoreLocator.sanitizeName_spec d.name,
        ha ▸ StoreLocator.sanitizeName_spec d.address⟩
  · intro p
    constructor
    · intro s hs
      unfold StoreLocator.SecurityUtils.sanitizeLocationParams at hs
      dsimp only at hs
      match hp : p.name with
      | none => rw [hp] at hs; exact absurd hs (by simp)
      | some s0 =>
        rw [hp] at hs
        dsimp only at hs
        by_cases h0 : s0 = ""
        · rw [if_pos h0] at hs
          exact absurd hs (by simp)
        · rw [if_neg h0] at hs
          simp only [Option.mem_def, Option.some.injEq] at hs
          subst hs
          exact StoreLocator.sanitizeText_spec s0 100
    · intro s hs
      unfold StoreLocator.SecurityUtils.sanitizeLocationParams at hs
      dsimp only at hs
      match hp : p.address with
      | none => rw [hp] at hs; exact absurd hs (by simp)
      | some s0 =>
        rw [hp] at hs
        dsimp only at hs
        by_cases h0 : s0 = ""
        · rw [if_pos h0] at hs
          exact absurd hs (by simp)
        · rw [if_neg h0] at hs
          simp only [Option.mem_def, Option.some.injEq] at hs
          subst hs
          exact StoreLocator.sanitizeText_spec s0 200

open StoreLocator.EnhancedNavigationService in
/-- Witness for the amended C8 at a concrete valid destination. -/
theorem sanitizeLocationParams_spec_witness :
    sanitizeLocationParams ⟨.fin 1, .fin 1, some "ab", some "cd"⟩ =
      some (StoreLocator.LocationService.roundTo 6 1,
        StoreLocator.LocationService.roundTo 6 1, some "ab", some "cd") ∧
    (∀ s ∈ (some "ab" : Option String), s.length ≤ 100 ∧ ∀ c ∈ s.data,
      c ≠ '<' ∧ c ≠ '>' ∧ c ≠ '"' ∧ c.toNat ≠ 39 ∧ c ≠ '&') := by
  have h : sanitizeLocationParams ⟨.fin 1, .fin 1, some "ab", some "cd"⟩ =
      some (StoreLocator.LocationService.roundTo 6 1,
        StoreLocator.LocationService.roundTo 6 1, some "ab", some "cd") := rfl
  have h2 := (sanitizeLocationParams_spec.1 ⟨.fin 1, .fin 1, some "ab", some "cd"⟩
    (StoreLocator.LocationService.roundTo 6 1)
    (StoreLocator.LocationService.roundTo 6 1) (some "ab") (some "cd") h).2.2.1
  exact ⟨h, h2⟩

open StoreLocator.PerformanceOptimizedMapService in
/-- C9 counterexample: the address "!!!" sanitizes to the empty string, yet
`PerformanceOptimizedMapService.geocodeAddress` — which short-circuits only
when the raw address trims to empty — issues one provider call for it (under
the empty cache key) and resolves to the provider result, not to null. -/
theorem geocodeAddress_empty_sanitize_counterexample :
    sanitizeAddress "!!!" = "" ∧
    (geocodeAddress (.success (some (1, 1))) 0 0 0 "!!!"
        ⟨[], [], [], 10000, 0⟩).2.1 = 1 ∧
    (geocodeAddress (.success (some (1, 1))) 0 0 0 "!!!"
        ⟨[], [], [], 10000, 0⟩).1 =
      some (LocationService.normalizeCoordinates 1 1) :=
  ⟨rfl, rfl, rfl⟩

open StoreLocator.PerformanceOptimizedMapService in
/-- C9 (amended): an address that sanitizes to the empty string resolves to
null without any network call in `OlaMapService.geocodeAddress`;
`PerformanceOptimizedMapService.geocodeAddress` resolves to null without any
call only when the raw address already trims to the empty string. -/
theorem geocodeAddress_empty_address (s : MapState) :
    (∀ (p : OlaMapService.OlaOutcome) (r1 r2 : ℚ) (address : String),
      sanitizeAddress address = "" →
      OlaMapService.geocodeAddress p r1 r2 address = (none, 0)) ∧
    (∀ (p : ProviderOutcome) (r1 r2 : ℚ) (now : ℤ) (address : String),
      (jsTrim address.data).isEmpty = true →
      geocodeAddress p r1 r2 now address s = (none, 0, s)) := by
  constructor
  · intro p r1 r2 address h
    unfold OlaMapService.geocodeAddress
    rw [h]
    rfl
  · intro p r1 r2 now address h
    unfold geocodeAddress
    rw [if_pos h]

open StoreLocator.PerformanceOptimizedMapService in
/-- Witness for the amended C9 at "!!!" (which sanitizes to empty) for the
Ola service and at the all-whitespace address " " for the performance
service. -/
theorem geocodeAddress_empty_address_witness :
    sanitizeAddress "!!!" = "" ∧
    OlaMapService.geocodeAddress .exception 0 0 "!!!" = (none, 0) ∧
    (jsTrim (" " : String).data).isEmpty = true ∧
    geocodeAddress .failure 0 0 0 " " ⟨[], [], [], 10000, 0⟩ =
      (none, 0, ⟨[], [], [], 10000, 0⟩) :=
  ⟨rfl, (geocodeAddress_empty_address ⟨[], [], [], 10000, 0⟩).1 .exception 0 0 "!!!" rfl,
    rfl, (geocodeAddress_empty_address ⟨[], [], [], 10000, 0⟩).2 .failure 0 0 0 " " rfl⟩

open StoreLocator.PerformanceOptimizedMapService in
/-- C10: the fallback geocoders never return null on a non-empty address;
when no gazetteer entry matches the address exactly (equality or
containment) or partially, the default Bangalore centroid with a small
pseudo-random jitter is still returned — so under provider failure or rate
limiting every non-empty address resolves to some coordinate. -/
theorem fallbackGeocode_total :
    (∀ (r1 r2 : ℚ) (address : String), address ≠ "" →
      (fallbackGeocode r1 r2 address).isSome = true) ∧
    (∀ (r1 r2 : ℚ) (address : String),
      locationCoordinates.find? (fun e =>
        jsToLower address == e.1 || jsIncludes (jsToLower address) e.1) = none →
      locationCoordinates.find? (fun e => (wordsOf e.1).any
        (fun w => jsIncludes (jsToLower address) w && decide (3 < w.length))) = none →
      fallbackGeocode r1 r2 address = some (LocationService.normalizeCoordinates
        (12.971599 + (r1 - 0.5) * 0.1) (77.594566 + (r2 - 0.5) * 0.1))) ∧
    (∀ (r1 r2 : ℚ) (address : String), address ≠ "" →
      (OlaMapService.fallbackGeocode r1 r2 address).isSome = true) ∧
    (∀ (r1 r2 : ℚ) (address : String),
      OlaMapService.locationCoordinates.find? (fun e =>
        jsToLower address == e.1 || jsIncludes (jsToLower address) e.1) = none →
      OlaMapService.locationCoordinates.find? (fun e =>
        jsIncludes (jsToLower address) ((wordsOf e.1).headD "")) = none →
      OlaMapService.fallbackGeocode r1 r2 address =
        some (12.9716 + (r1 - 0.5) * 0.1, 77.5946 + (r2 - 0.5) * 0.1)) := by
  refine ⟨fun r1 r2 address _ => ?_, fun r1 r2 address h1 h2 => ?_,
    fun r1 r2 address _ => ?_, fun r1 r2 address h1 h2 => ?_⟩
  · unfold fallbackGeocode
    dsimp only
    split
    · rfl
    · split <;> rfl
  · unfold fallbackGeocode
    dsimp only
    rw [h1, h2]
  · unfold OlaMapService.fallbackGeocode
    dsimp only
    split
    · rfl
    · split <;> rfl
  · unfold OlaMapService.fallbackGeocode
    dsimp only
    rw [h1, h2]

open StoreLocator.PerformanceOptimizedMapService in
/-- Witness for C10 at the unmatched address "zzz" with both Math.random
draws equal to one half. -/
theorem fallbackGeocode_total_witness :
    ("zzz" : String) ≠ "" ∧
    (fallbackGeocode (1/2) (1/2) "zzz").isSome = true ∧
    fallbackGeocode (1/2) (1/2) "zzz" =
      some (LocationService.normalizeCoordinates
        (12.971599 + ((1 : ℚ)/2 - 0.5) * 0.1) (77.594566 + ((1 : ℚ)/2 - 0.5) * 0.1)) ∧
    (OlaMapService.fallbackGeocode (1/2) (1/2) "zzz").isSome = true ∧
    OlaMapService.fallbackGeocode (1/2) (1/2) "zzz" =
      some (12.9716 + ((1 : ℚ)/2 - 0.5) * 0.1, 77.5946 + ((1 : ℚ)/2 - 0.5) * 0.1) := by
  have hne : ("zzz" : String) ≠ "" := by decide
  exact ⟨hne, fallbackGeocode_total.1 (1/2) (1/2) "zzz" hne,
    fallbackGeocode_total.2.1 (1/2) (1/2) "zzz" rfl (by decide),
    fallbackGeocode_total.2.2.1 (1/2) (1/2) "zzz" hne,
    fallbackGeocode_total.2.2.2 (1/2) (1/2) "zzz" rfl (by decide)⟩

open StoreLocator.PerformanceOptimizedMapService in
/-- C6: `canMakeRequest` is true exactly when fewer than
MAX_REQUESTS_PER_WINDOW (100) recorded timestamps lie within the trailing
RATE_LIMIT_WINDOW (60 s) and the daily quota has calls remaining; and a
`geocodeAddress` request that misses the cache while the limiter refuses is
denied: it is routed to the fallback geocoder with no provider call. -/
theorem canMakeRequest_spec :
    (∀ (now : ℤ) (s : MapState),
      (canMakeRequest now s).1 = true ↔
        ((s.requestTimestamps.filter
            (fun t => decide (now - t < RATE_LIMIT_WINDOW))).length <
          MAX_REQUESTS_PER_WINDOW ∧ 0 < s.remainingCalls)) ∧
    (∀ (p : ProviderOutcome) (r1 r2 : ℚ) (now : ℤ) (address : String) (s : MapState),
      (jsTrim address.data).isEmpty = false →
      cacheLookup now (cacheKey address) s.geocodeCache = none →
      (canMakeRequest now s).1 = false →
      (geocodeAddress p r1 r2 now address s).1 = fallbackGeocode r1 r2 address ∧
      (geocodeAddress p r1 r2 now address s).2.1 = 0) := by
  constructor
  · intro now s
    unfold canMakeRequest
    split
    · rename_i h
      simp only [Bool.false_eq_true, false_iff]
      rintro ⟨-, hpos⟩
      omega
    · rename_i h
      simp only [decide_eq_true_eq]
      exact ⟨fun hl => ⟨hl, by omega⟩, fun h => h.1⟩
  · intro p r1 r2 now address s htrim hmiss hcan
    have hrun := geocodeAddress_denied p r1 r2 now address s htrim hmiss hcan
    exact ⟨by rw [hrun], by rw [hrun]⟩

open StoreLocator.PerformanceOptimizedMapService in
/-- Witness for C6: with 100 request timestamps already inside the window
(the per-window maximum), the next cache-missing request is denied and routed
to the fallback geocoder. -/
theorem canMakeRequest_spec_witness :
    ((canMakeRequest 0 ⟨[], [], List.replicate 100 0, 10000, 0⟩).1 = false) ∧
    (geocodeAddress .failure 0 0 0 "x"
        ⟨[], [], List.replicate 100 0, 10000, 0⟩).1 = fallbackGeocode 0 0 "x" ∧
    (geocodeAddress .failure 0 0 0 "x"
        ⟨[], [], List.replicate 100 0, 10000, 0⟩).2.1 = 0 := by
  have hcan : (canMakeRequest 0
      (⟨[], [], List.replicate 100 0, 10000, 0⟩ : MapState)).1 = false := by decide
  have h := canMakeRequest_spec.2 .failure 0 0 0 "x"
    ⟨[], [], List.replicate 100 0, 10000, 0⟩ rfl rfl hcan
  exact ⟨hcan, h.1, h.2⟩
